import Mathlib

/-!
Verification of the wishlists service (Flask/SQLAlchemy CRUD microservice).

This file gives a shallow embedding of the parts of the service that the
frozen claims are about:

* the item filter composer `WishlistItem.find_with_filters`
  (src/service/wishlist.py, lines 402-421);
* the item deserializer `WishlistItem.deserialize`
  (src/service/wishlist.py, lines 286-327);
* the transactional create/update/delete operations on both models
  (src/service/wishlist.py, lines 156-194 and 329-367);
* the HTTP handlers `WishlistItemCollection.get`, `WishlistResource.delete`
  and `WishlistItemResource.delete` (src/service/routes.py).

Modelling conventions:

* SQL `Numeric(10,2)` prices and Python floats are both modelled as `Rat`
  (all prices appearing in the service are finite decimals).
* Machine rows are Lean structures; the store is a list of rows.
* Python `None` becomes `Option.none`; Python string truthiness
  (`if product_name:`) is modelled explicitly: `None` and `""` are falsy.
* SQL `NULL` comparison semantics: a row whose `category` is NULL never
  matches `category == value`, which the embedding renders as a match on
  `Option String`.
* Timestamps are carried opaquely (they are never validated or filtered on
  in the code the claims concern).
-/

namespace WishlistsSpec

/-- A dynamically-typed Python/JSON value, restricted to the shapes that can
actually reach the deserializer in this service: ints, floats, strings and
`None`. -/
inductive Val where
  | vInt (n : Int)
  | vFloat (q : Rat)
  | vStr (s : String)
  | vNone
deriving Repr, DecidableEq

/-- A `WishlistItem` row (src/service/wishlist.py, table schema lines
241-255).  `id` is `Option Int` because a freshly constructed object has no
primary key yet.  `category` is nullable in the schema.  `created_at` and
`updated_at` are omitted: no claim mentions them and no modelled code path
reads them. -/
structure WishlistItem where
  id : Option Int
  wishlist_id : Int
  product_id : Int
  product_name : String
  product_description : String
  product_price : Rat
  category : Option String
  quantity : Int
deriving Repr, DecidableEq

/-- A `Wishlist` row (src/service/wishlist.py, table schema lines 45-58).
Timestamps and the item relationship are omitted; the items of a wishlist
are recovered from the item table by their `wishlist_id` foreign key. -/
structure Wishlist where
  id : Option Int
  name : String
  description : Option String
  customer_id : String
  is_public : Bool
deriving Repr, DecidableEq

/-- The relational store as seen by the query layer: the two tables. -/
structure AppStore where
  wishlists : List Wishlist
  items : List WishlistItem
deriving Repr, DecidableEq

/-- The item collection `I(W)` of wishlist `wid`: the rows of the item table
whose foreign key references it (the `wishlist_items` relationship of the
`Wishlist` model, src/service/wishlist.py lines 56-58). -/
def itemsOf (wid : Int) (items : List WishlistItem) : List WishlistItem :=
  items.filter (fun i => i.wishlist_id == wid)

/-- `WishlistItem.find_with_filters` (src/service/wishlist.py lines
402-421), translated clause by clause.  The source builds one SQLAlchemy
query:

* it always filters on `wishlist_id`;
* `if product_name:` adds an exact-match name filter, so Python truthiness
  skips the filter for `None` and for the empty string;
* `if category:` likewise (and SQL `NULL` categories never match);
* `if min_price is not None:` adds `product_price >= min_price`;
* `if max_price is not None:` adds `product_price <= max_price`.
-/
def WishlistItem.find_with_filters (items : List WishlistItem) (wishlist_id : Int)
    (product_name category : Option String) (min_price max_price : Option Rat) :
    List WishlistItem :=
  let query := items.filter (fun i => i.wishlist_id == wishlist_id)
  let query := match product_name with
    | some s => if s.isEmpty then query else query.filter (fun i => i.product_name == s)
    | none => query
  let query := match category with
    | some s => if s.isEmpty then query else query.filter (fun i => i.category == some s)
    | none => query
  let query := match min_price with
    | some p => query.filter (fun i => decide (p ≤ i.product_price))
    | none => query
  let query := match max_price with
    | some p => query.filter (fun i => decide (i.product_price ≤ p))
    | none => query
  query

/-- Spec-side predicate, written from the claim's words (not from the
source), for the refinement comparison of claim C1: an item satisfies the
conjunction of all *provided* criteria, where `product_name` and `category`
are exact-match comparisons and an absent (`none`) criterion imposes no
constraint, and the price bounds are inclusive. -/
def specConjunctionMatch (wid : Int) (product_name category : Option String)
    (min_price max_price : Option Rat) (i : WishlistItem) : Bool :=
  (i.wishlist_id == wid)
  && (match product_name with
      | some s => i.product_name == s
      | none => true)
  && (match category with
      | some s => i.category == some s
      | none => true)
  && (match min_price with
      | some p => decide (p ≤ i.product_price)
      | none => true)
  && (match max_price with
      | some p => decide (i.product_price ≤ p)
      | none => true)

/-! ### Python float parsing

The HTTP layer obtains `min_price`/`max_price` with
`request.args.get("min_price", type=float)`.  Werkzeug applies `float` to
the raw string and, when the conversion raises `ValueError`, silently
returns the default `None` instead of propagating the error.  The parser
below models `float` on the plain signed-decimal fragment
(`[+-] digits [. digits]`, with at least one digit); exponents, infinities
and embedded underscores never occur in the inputs this service's callers
or tests use, and any such string parses to `none` here. -/

/-- Numeric value of a decimal digit character, `none` otherwise. -/
def digitVal (c : Char) : Option Nat :=
  if c.isDigit then some (c.toNat - 48) else none

/-- Value of a digit string read left to right; `none` if any character is
not a digit (the empty list gives `some 0` and is ruled out by callers). -/
def digitsVal (cs : List Char) : Option Nat :=
  cs.foldl
    (fun acc c =>
      match acc, digitVal c with
      | some n, some d => some (n * 10 + d)
      | _, _ => none)
    (some 0)

/-- Parse an unsigned decimal literal `digits [. digits]` (either digit
group may be empty, but not both, matching Python's `float`). -/
def parseUnsignedDecimal (cs : List Char) : Option Rat :=
  let ipart := cs.takeWhile Char.isDigit
  let rest := cs.dropWhile Char.isDigit
  match rest with
  | [] =>
      if ipart.isEmpty then none
      else (digitsVal ipart).map (fun n => (n : Rat))
  | '.' :: rest2 =>
      let fpart := rest2.takeWhile Char.isDigit
      let rest3 := rest2.dropWhile Char.isDigit
      if rest3.isEmpty then
        if ipart.isEmpty && fpart.isEmpty then none
        else
          match digitsVal ipart, digitsVal fpart with
          | some n, some f =>
              some ((n : Rat) + (f : Rat) / ((10 : Rat) ^ fpart.length))
          | _, _ => none
      else none
  | _ => none

/-- Python `float(s)` on a string, on the signed-decimal fragment. -/
def pyFloatOfString (s : String) : Option Rat :=
  match s.data with
  | '-' :: rest => (parseUnsignedDecimal rest).map (fun q => -q)
  | '+' :: rest => parseUnsignedDecimal rest
  | cs => parseUnsignedDecimal cs

/-- `request.args.get(key, type=float)`: a missing parameter gives `None`;
a present parameter that `float` cannot convert ALSO gives the default
`None` (Werkzeug catches the `ValueError`). -/
def argsGetFloat (raw : Option String) : Option Rat :=
  raw.bind pyFloatOfString

/-! ### The HTTP handlers the claims concern -/

/-- `Wishlist.find` (src/service/wishlist.py lines 203-208): primary-key
lookup in the wishlist table. -/
def Wishlist.find (store : AppStore) (by_id : Int) : Option Wishlist :=
  store.wishlists.find? (fun w => w.id == some by_id)

/-- `WishlistItem.find` (src/service/wishlist.py lines 430-435):
primary-key lookup in the item table. -/
def WishlistItem.find (store : AppStore) (by_id : Int) : Option WishlistItem :=
  store.items.find? (fun i => i.id == some by_id)

/-- Outcome of a handler, as status code plus body.  `ok` carries the list
of item rows the handler serializes; message texts carry no apostrophed id
interpolation (the claims only depend on which criteria appear, never on
the surrounding prose, except where stated per claim). -/
inductive HttpResponse where
  | ok (body : List WishlistItem)
  | notFound (message : String)
  | badRequest (message : String)
deriving Repr, DecidableEq

/-- HTTP status code of a response. -/
def HttpResponse.statusCode : HttpResponse → Nat
  | .ok _ => 200
  | .notFound _ => 404
  | .badRequest _ => 400

/-- `WishlistItemCollection.get` (src/service/routes.py lines 324-356),
the `GET /wishlists/{wishlist_id}/items` handler, translated line by line:

* abort 404 when the wishlist does not exist;
* read `product_name` and `category` as raw optional strings;
* read `min_price`/`max_price` through `type=float` coercion (silently
  `None` on a conversion failure — see `argsGetFloat`);
* run `find_with_filters` and return the serialized rows with 200.

Note the handler contains no empty-result 404 branch and no bad-request
branch; `@api.expect` on the method documents the parameters for Swagger
without validating them. -/
def WishlistItemCollection.get (store : AppStore) (wishlist_id : Int)
    (raw_product_name raw_category raw_min_price raw_max_price : Option String) :
    HttpResponse :=
  match Wishlist.find store wishlist_id with
  | none => .notFound ("Wishlist with id " ++ toString wishlist_id ++ " could not be found.")
  | some _ =>
      let product_name := raw_product_name
      let category := raw_category
      let min_price := argsGetFloat raw_min_price
      let max_price := argsGetFloat raw_max_price
      let items := WishlistItem.find_with_filters store.items wishlist_id
        product_name category min_price max_price
      .ok items

/-- `WishlistResource.delete` (src/service/routes.py lines 285-298):
delete the wishlist when it exists (the relationship is declared with
`cascade="all, delete-orphan"`, so its items go with it), and return
204 No Content either way. -/
def WishlistResource.delete (store : AppStore) (wishlist_id : Int) :
    Nat × AppStore :=
  match Wishlist.find store wishlist_id with
  | some _ =>
      (204,
        { wishlists := store.wishlists.filter (fun w => !(w.id == some wishlist_id)),
          items := store.items.filter (fun i => !(i.wishlist_id == wishlist_id)) })
  | none => (204, store)

/-- `WishlistItemResource.delete` (src/service/routes.py lines 444-459):
delete the item only when it exists AND belongs to the addressed wishlist,
and return 204 No Content in every case. -/
def WishlistItemResource.delete (store : AppStore) (wishlist_id item_id : Int) :
    Nat × AppStore :=
  match WishlistItem.find store item_id with
  | some item =>
      if item.wishlist_id == wishlist_id then
        (204, { store with items := store.items.filter (fun i => !(i.id == some item_id)) })
      else
        (204, store)
  | none => (204, store)

/-! ### Item deserialization -/

/-- Python `float(v)` on a dynamically-typed value: ints and floats
convert, numeric strings parse, `None` raises `TypeError` (here: `none`). -/
def pyFloatOfVal : Val → Option Rat
  | .vInt n => some ((n : Rat))
  | .vFloat q => some q
  | .vStr s => pyFloatOfString s
  | .vNone => none

/-- The request dictionary handed to `WishlistItem.deserialize`: each key
either absent (the dict has no such key) or bound to a value. -/
structure ItemData where
  id : Option Val
  wishlist_id : Option Val
  product_id : Option Val
  product_name : Option Val
  product_description : Option Val
  quantity : Option Val
  product_price : Option Val
  category : Option Val
  created_at : Option Val
  updated_at : Option Val
deriving Repr, DecidableEq

/-- The state of a `WishlistItem` object after a successful
`deserialize`: fields the method validates are typed (`product_name` and
`product_description` proven strings, `quantity` a machine int,
`product_price` the result of `float(...)`); fields it merely copies stay
dynamically typed. -/
structure DeserializedItem where
  id : Option Val
  wishlist_id : Val
  product_id : Val
  product_name : String
  product_description : String
  quantity : Int
  product_price : Rat
  category : Option Val
  created_at : Option Val
  updated_at : Option Val
deriving Repr, DecidableEq

/-- `WishlistItem.deserialize` (src/service/wishlist.py lines 286-327),
translated in source order:

* `data["wishlist_id"]`, `data["product_id"]`, `data["product_name"]`,
  `data["product_description"]` raise `KeyError` when missing, which the
  handler wraps as "Invalid WishlistItem: missing <key>";
* `data.get("quantity", 1)` defaults to the int 1;
* `float(data["product_price"])` raises `KeyError` when the key is
  missing, and `ValueError`/`TypeError` (wrapped as "bad or no data") when
  the value does not convert;
* the explicit checks then require `product_name` and
  `product_description` to be strings and `quantity` to be an `int` —
  there is no check on the SIGN of `quantity`. -/
def WishlistItem.deserialize (data : ItemData) : Except String DeserializedItem :=
  match data.wishlist_id with
  | none => .error ("Invalid WishlistItem: missing wishlist_id")
  | some wlid =>
  match data.product_id with
  | none => .error ("Invalid WishlistItem: missing product_id")
  | some pid =>
  match data.product_name with
  | none => .error ("Invalid WishlistItem: missing product_name")
  | some pnv =>
  match data.product_description with
  | none => .error ("Invalid WishlistItem: missing product_description")
  | some pdv =>
  let qv := data.quantity.getD (Val.vInt 1)
  match data.product_price with
  | none => .error ("Invalid WishlistItem: missing product_price")
  | some priceVal =>
  match pyFloatOfVal priceVal with
  | none => .error ("Invalid WishlistItem: bad or no data - could not convert product_price to float")
  | some price =>
  match pnv with
  | Val.vStr pname =>
    match pdv with
    | Val.vStr pdesc =>
      match qv with
      | Val.vInt q =>
          .ok ⟨data.id, wlid, pid, pname, pdesc, q, price,
               data.category, data.created_at, data.updated_at⟩
      | _ => .error ("Invalid WishlistItem: quantity must be an integer")
    | _ => .error ("Invalid WishlistItem: product_description must be a string")
  | _ => .error ("Invalid WishlistItem: product_name must be a string")

/-! ### Transactional persistence operations

`create`, `update` and `delete` on both models share one literal shape
(src/service/wishlist.py lines 156-194 for `Wishlist`, 329-367 for
`WishlistItem`): stage the change on the session, `commit`, and on any
storage exception `rollback` and re-raise as `DataValidationError`.  The
session is modelled as the committed table plus a list of staged changes;
whether `commit` succeeds is an explicit parameter standing for the
storage engine's behavior. -/

/-- A staged unit of work on one row. -/
inductive Change (α : Type) where
  | add (x : α)
  | del (x : α)
  | upd (oldx newx : α)
deriving Repr, DecidableEq

/-- Applying one staged change to a table. -/
def applyChange [DecidableEq α] : List α → Change α → List α
  | l, .add x => l ++ [x]
  | l, .del x => l.filter (fun y => decide (y ≠ x))
  | l, .upd ox nx => l.map (fun y => if y = ox then nx else y)

/-- The ORM session for one table: committed rows plus staged changes. -/
structure DbSession (α : Type) where
  committed : List α
  pending : List (Change α)
deriving Repr, DecidableEq

/-- Table state after flushing all staged changes. -/
def DbSession.flush [DecidableEq α] (s : DbSession α) : List α :=
  s.pending.foldl applyChange s.committed

/-- `db.session.rollback()`: discard the staged changes; the committed
table (the transaction's starting state) is untouched. -/
def DbSession.rollback (s : DbSession α) : DbSession α :=
  { s with pending := [] }

/-- Whether the storage engine's `commit` succeeds or raises. -/
inductive StorageOutcome where
  | success
  | failure (msg : String)
deriving Repr, DecidableEq

/-- The only exception type these methods raise
(src/service/wishlist.py line 18). -/
inductive PyError where
  | dataValidationError (msg : String)
deriving Repr, DecidableEq

/-- Result of one persistence method: the session it leaves behind and
whether it returned normally or raised. -/
structure OpResult (α : Type) where
  session : DbSession α
  outcome : Except PyError Unit

/-- Python truthiness of `self.id` in `if not self.id:`: `None` and `0`
are falsy, every other int is truthy. -/
def pyFalsyId : Option Int → Bool
  | none => true
  | some n => n == 0

/-- `Wishlist.create` (src/service/wishlist.py lines 156-169): clear the
id (the store assigns the next key on flush; the assignment itself is not
modelled), `session.add(self)`, `commit`; on a storage exception,
`rollback` and raise `DataValidationError`. -/
def Wishlist.create (self : Wishlist) (s : DbSession Wishlist)
    (oc : StorageOutcome) : OpResult Wishlist :=
  let self := { self with id := none }
  let s := { s with pending := s.pending ++ [Change.add self] }
  match oc with
  | .success => ⟨⟨s.flush, []⟩, .ok ()⟩
  | .failure m => ⟨s.rollback, .error (.dataValidationError m)⟩

/-- `Wishlist.update` (src/service/wishlist.py lines 171-183): raise
`DataValidationError` immediately when `not self.id`; otherwise `commit`
the staged attribute changes, rolling back and re-raising on a storage
exception. -/
def Wishlist.update (self : Wishlist) (s : DbSession Wishlist)
    (oc : StorageOutcome) : OpResult Wishlist :=
  if pyFalsyId self.id then
    ⟨s, .error (.dataValidationError ("Update called with empty ID field"))⟩
  else
    match oc with
    | .success => ⟨⟨s.flush, []⟩, .ok ()⟩
    | .failure m => ⟨s.rollback, .error (.dataValidationError m)⟩

/-- `Wishlist.delete` (src/service/wishlist.py lines 185-194):
`session.delete(self)`, `commit`; rollback and re-raise on a storage
exception. -/
def Wishlist.delete (self : Wishlist) (s : DbSession Wishlist)
    (oc : StorageOutcome) : OpResult Wishlist :=
  let s := { s with pending := s.pending ++ [Change.del self] }
  match oc with
  | .success => ⟨⟨s.flush, []⟩, .ok ()⟩
  | .failure m => ⟨s.rollback, .error (.dataValidationError m)⟩

/-- `WishlistItem.create` (src/service/wishlist.py lines 329-342):
textually the same body as `Wishlist.create`. -/
def WishlistItem.create (self : WishlistItem) (s : DbSession WishlistItem)
    (oc : StorageOutcome) : OpResult WishlistItem :=
  let self := { self with id := none }
  let s := { s with pending := s.pending ++ [Change.add self] }
  match oc with
  | .success => ⟨⟨s.flush, []⟩, .ok ()⟩
  | .failure m => ⟨s.rollback, .error (.dataValidationError m)⟩

/-- `WishlistItem.update` (src/service/wishlist.py lines 344-356):
textually the same body as `Wishlist.update`. -/
def WishlistItem.update (self : WishlistItem) (s : DbSession WishlistItem)
    (oc : StorageOutcome) : OpResult WishlistItem :=
  if pyFalsyId self.id then
    ⟨s, .error (.dataValidationError ("Update called with empty ID field"))⟩
  else
    match oc with
    | .success => ⟨⟨s.flush, []⟩, .ok ()⟩
    | .failure m => ⟨s.rollback, .error (.dataValidationError m)⟩

/-- `WishlistItem.delete` (src/service/wishlist.py lines 358-367):
textually the same body as `Wishlist.delete`. -/
def WishlistItem.delete (self : WishlistItem) (s : DbSession WishlistItem)
    (oc : StorageOutcome) : OpResult WishlistItem :=
  let s := { s with pending := s.pending ++ [Change.del self] }
  match oc with
  | .success => ⟨⟨s.flush, []⟩, .ok ()⟩
  | .failure m => ⟨s.rollback, .error (.dataValidationError m)⟩

/-! ### Concrete data used by counterexamples and witnesses -/

/-- A wishlist row with id 1. -/
def demoWishlist : Wishlist :=
  ⟨some 1, "holiday", none, "customer-1", false⟩

/-- An item row of wishlist 1: category electronics, price 25. -/
def demoItem : WishlistItem :=
  ⟨some 1, 1, 100, "Widget", "A widget", 25, some "electronics", 1⟩

/-- A store holding exactly `demoWishlist` and `demoItem`. -/
def demoStore : AppStore :=
  ⟨[demoWishlist], [demoItem]⟩

/-! ### Helper lemmas -/

/-- A string other than `""` has `isEmpty = false`. -/
lemma isEmpty_false_of_ne (s : String) (h : s ≠ "") : s.isEmpty = false := by
  cases hb : s.isEmpty
  · rfl
  · exact absurd ((String.isEmpty_iff s).mp hb) h

/-- The filter chain of `find_with_filters` collapses to one filter by the
conjunction of the provided criteria, as long as any provided
`product_name`/`category` string is non-empty (the empty string falls into
the Python-truthiness gap treated separately in claim C9). -/
lemma fwf_eq_filter_conjunction (items : List WishlistItem) (wid : Int)
    (pn cat : Option String) (minp maxp : Option Rat)
    (hpn : pn ≠ some "") (hcat : cat ≠ some "") :
    WishlistItem.find_with_filters items wid pn cat minp maxp
      = items.filter (specConjunctionMatch wid pn cat minp maxp) := by
  rcases pn with _ | s
  · rcases cat with _ | t
    · rcases minp with _ | p <;> rcases maxp with _ | q <;>
        (simp only [WishlistItem.find_with_filters, List.filter_filter]
         apply List.filter_congr
         intro a _
         simp [specConjunctionMatch, Bool.and_assoc, Bool.and_comm, Bool.and_left_comm])
    · have ht : t.isEmpty = false := isEmpty_false_of_ne t (by simpa using hcat)
      rcases minp with _ | p <;> rcases maxp with _ | q <;>
        (simp only [WishlistItem.find_with_filters, ht, Bool.false_eq_true,
           if_false, List.filter_filter]
         apply List.filter_congr
         intro a _
         simp [specConjunctionMatch, Bool.and_assoc, Bool.and_comm, Bool.and_left_comm])
  · have hs : s.isEmpty = false := isEmpty_false_of_ne s (by simpa using hpn)
    rcases cat with _ | t
    · rcases minp with _ | p <;> rcases maxp with _ | q <;>
        (simp only [WishlistItem.find_with_filters, hs, Bool.false_eq_true,
           if_false, List.filter_filter]
         apply List.filter_congr
         intro a _
         simp [specConjunctionMatch, Bool.and_assoc, Bool.and_comm, Bool.and_left_comm])
    · have ht : t.isEmpty = false := isEmpty_false_of_ne t (by simpa using hcat)
      rcases minp with _ | p <;> rcases maxp with _ | q <;>
        (simp only [WishlistItem.find_with_filters, hs, ht, Bool.false_eq_true,
           if_false, List.filter_filter]
         apply List.filter_congr
         intro a _
         simp [specConjunctionMatch, Bool.and_assoc, Bool.and_comm, Bool.and_left_comm])

/-! ### Claim theorems -/

/-- Claim C1, counterexample to the claim as stated: when the provided
`product_name` criterion is the empty string, `find_with_filters` drops
the filter (Python truthiness), whereas the conjunction of all provided
exact-match criteria would keep only items literally named `""`.  On a
one-item store the two results differ. -/
theorem c1_counterexample :
    WishlistItem.find_with_filters [demoItem] 1 (some "") none none none
      ≠ [demoItem].filter (specConjunctionMatch 1 (some "") none none none) := by
  decide

/-- Claim C1 as amended: for every wishlist and every combination of
provided criteria in which any provided `product_name` or `category`
string is non-empty, `find_with_filters` returns exactly the subset of the
store's rows satisfying the conjunction of the wishlist-membership test
and all provided criteria (exact match on strings, inclusive bounds on
prices); an item failing any one active predicate is excluded. -/
theorem c1_conjunction_of_provided_criteria (items : List WishlistItem) (wid : Int)
    (pn cat : Option String) (minp maxp : Option Rat)
    (hpn : pn ≠ some "") (hcat : cat ≠ some "") :
    WishlistItem.find_with_filters items wid pn cat minp maxp
      = items.filter (specConjunctionMatch wid pn cat minp maxp) :=
  fwf_eq_filter_conjunction items wid pn cat minp maxp hpn hcat

/-- Claim C1 witness: the amended theorem applied to a concrete store and
concrete criteria. -/
theorem c1_witness :
    (some "Widget" : Option String) ≠ some ""
    ∧ (some "electronics" : Option String) ≠ some ""
    ∧ WishlistItem.find_with_filters [demoItem] 1 (some "Widget") (some "electronics") (some 10) (some 30)
        = [demoItem].filter (specConjunctionMatch 1 (some "Widget") (some "electronics") (some 10) (some 30)) :=
  ⟨by decide, by decide,
    c1_conjunction_of_provided_criteria [demoItem] 1 (some "Widget") (some "electronics")
      (some 10) (some 30) (by decide) (by decide)⟩

/-- Claim C4: with no criteria provided, `find_with_filters` returns
exactly the item collection of the addressed wishlist, and on an empty
store it returns the empty list rather than an error. -/
theorem c4_no_criteria_identity (items : List WishlistItem) (wid : Int) :
    WishlistItem.find_with_filters items wid none none none none = itemsOf wid items
    ∧ WishlistItem.find_with_filters [] wid none none none none = [] :=
  ⟨rfl, rfl⟩

/-- Claim C5: the price bounds are inclusive — an item of the addressed
wishlist whose price equals the provided `min_price` exactly, or equals
the provided `max_price` exactly (or both at once), is in the result. -/
theorem c5_price_bounds_inclusive (items : List WishlistItem) (i : WishlistItem)
    (wid : Int) (h1 : i ∈ items) (h2 : i.wishlist_id = wid) :
    i ∈ WishlistItem.find_with_filters items wid none none (some i.product_price) none
    ∧ i ∈ WishlistItem.find_with_filters items wid none none none (some i.product_price)
    ∧ i ∈ WishlistItem.find_with_filters items wid none none (some i.product_price)
        (some i.product_price) := by
  refine ⟨?_, ?_, ?_⟩ <;>
    simp [WishlistItem.find_with_filters, List.mem_filter, h1, h2]

/-- Claim C5 witness: the theorem applied to the concrete demo item at its
own price. -/
theorem c5_witness :
    demoItem ∈ ([demoItem] : List WishlistItem)
    ∧ demoItem.wishlist_id = 1
    ∧ demoItem ∈ WishlistItem.find_with_filters [demoItem] 1 none none
        (some demoItem.product_price) none :=
  ⟨by decide, by decide,
    (c5_price_bounds_inclusive [demoItem] demoItem 1 (by decide) (by decide)).1⟩

/-- Claim C9: an empty-string `product_name` or `category` criterion is
Python-falsy, so `find_with_filters` treats it exactly like an absent
criterion: the results coincide for every store and every choice of the
other criteria. -/
theorem c9_empty_string_criteria_ignored (items : List WishlistItem) (wid : Int)
    (pn cat : Option String) (minp maxp : Option Rat) :
    WishlistItem.find_with_filters items wid (some "") cat minp maxp
        = WishlistItem.find_with_filters items wid none cat minp maxp
    ∧ WishlistItem.find_with_filters items wid pn (some "") minp maxp
        = WishlistItem.find_with_filters items wid pn none minp maxp :=
  ⟨rfl, rfl⟩

/-- Claim C2 code divergence: on a store whose wishlist 1 holds one item
of category electronics, the `GET /wishlists/1/items?category=nonexistent`
request has an active criterion and an empty filtered result, yet the
handler answers 200 with an empty body — there is no 404 branch and no
diagnostic message construction in `WishlistItemCollection.get`. -/
theorem c2_code_divergence :
    WishlistItemCollection.get demoStore 1 none (some "nonexistent") none none
        = HttpResponse.ok []
    ∧ (WishlistItemCollection.get demoStore 1 none (some "nonexistent") none none).statusCode
        = 200 := by
  decide

/-- Claim C3 code divergence: a `min_price` that does not parse as a float
is silently dropped (`request.args.get(key, type=float)` swallows the
`ValueError` and yields `None`), the store query IS executed, and the
handler answers 200 with the unfiltered item list — not the claimed 400
with no query. -/
theorem c3_code_divergence :
    WishlistItemCollection.get demoStore 1 none none (some "invalid") none
        = HttpResponse.ok [demoItem]
    ∧ (WishlistItemCollection.get demoStore 1 none none (some "invalid") none).statusCode
        = 200 := by
  decide

/-- Request data carrying a negative integer quantity; every other field
is well-formed. -/
def negQuantityData : ItemData :=
  ⟨none, some (Val.vInt 1), some (Val.vInt 100), some (Val.vStr ("Widget")),
   some (Val.vStr ("A widget")), some (Val.vInt (-5)), some (Val.vFloat 25),
   none, none, none⟩

/-- Request data identical to `negQuantityData` but with quantity 3. -/
def posQuantityData : ItemData :=
  ⟨none, some (Val.vInt 1), some (Val.vInt 100), some (Val.vStr ("Widget")),
   some (Val.vStr ("A widget")), some (Val.vInt 3), some (Val.vFloat 25),
   none, none, none⟩

/-- Claim C6, counterexample to the claim as stated: `deserialize` accepts
item data whose quantity is the negative integer -5 — the method checks
only `isinstance(self.quantity, int)` and never the sign — so the stored
invariant "quantity is non-negative" does not hold and no validation error
is raised. -/
theorem c6_counterexample :
    (WishlistItem.deserialize negQuantityData).toOption.map DeserializedItem.quantity
      = some (-5) := by
  rfl

/-- Claim C6 as amended: deserialization validates only the Python type of
`quantity` — every accepted item's quantity is exactly the integer carried
by the request (1 when the key is absent), with no sign restriction. -/
theorem c6_quantity_integer_only (data : ItemData) (it : DeserializedItem)
    (h : WishlistItem.deserialize data = Except.ok it) :
    data.quantity.getD (Val.vInt 1) = Val.vInt it.quantity := by
  unfold WishlistItem.deserialize at h
  iterate 10 (all_goals try split at h)
  all_goals try simp_all
  all_goals
    rcases hq : data.quantity.getD (Val.vInt 1) with n | q | s | _ <;>
      simp only [hq] at h <;> simp_all
  all_goals (subst h; simp)

/-- Claim C6 witness: the amended theorem applied to concrete well-formed
data with quantity 3. -/
theorem c6_witness :
    WishlistItem.deserialize posQuantityData
        = Except.ok ⟨none, Val.vInt 1, Val.vInt 100, "Widget", "A widget", 3, 25, none, none, none⟩
    ∧ posQuantityData.quantity.getD (Val.vInt 1) = Val.vInt (3 : Int) :=
  ⟨rfl, c6_quantity_integer_only posQuantityData
    ⟨none, Val.vInt 1, Val.vInt 100, "Widget", "A widget", 3, 25, none, none, none⟩ rfl⟩

/-- Claim C7: `update` on either model raises `DataValidationError` and
leaves the session untouched when the object's identifier is unset, and
an `update` that returns normally implies the identifier was set. -/
theorem c7_update_requires_id (w : Wishlist) (i : WishlistItem)
    (sw : DbSession Wishlist) (si : DbSession WishlistItem)
    (ocw oci : StorageOutcome) :
    (w.id = none →
      (Wishlist.update w sw ocw).outcome
          = Except.error (PyError.dataValidationError ("Update called with empty ID field"))
      ∧ (Wishlist.update w sw ocw).session = sw)
    ∧ (i.id = none →
      (WishlistItem.update i si oci).outcome
          = Except.error (PyError.dataValidationError ("Update called with empty ID field"))
      ∧ (WishlistItem.update i si oci).session = si)
    ∧ ((Wishlist.update w sw ocw).outcome = Except.ok () → w.id ≠ none)
    ∧ ((WishlistItem.update i si oci).outcome = Except.ok () → i.id ≠ none) := by
  refine ⟨?_, ?_, ?_, ?_⟩
  · intro h
    simp [Wishlist.update, pyFalsyId, h]
  · intro h
    simp [WishlistItem.update, pyFalsyId, h]
  · intro hok hnone
    simp [Wishlist.update, pyFalsyId, hnone] at hok
  · intro hok hnone
    simp [WishlistItem.update, pyFalsyId, hnone] at hok

/-- Claim C7 witness: updating a wishlist and an item with unset ids on an
empty session raises the empty-ID `DataValidationError`. -/
theorem c7_witness :
    (Wishlist.update ⟨none, "holiday", none, "customer-1", false⟩ ⟨[], []⟩ StorageOutcome.success).outcome
        = Except.error (PyError.dataValidationError ("Update called with empty ID field"))
    ∧ (WishlistItem.update ⟨none, 1, 100, "Widget", "A widget", 25, none, 1⟩ ⟨[], []⟩ StorageOutcome.success).outcome
        = Except.error (PyError.dataValidationError ("Update called with empty ID field")) :=
  ⟨((c7_update_requires_id ⟨none, "holiday", none, "customer-1", false⟩
      ⟨none, 1, 100, "Widget", "A widget", 25, none, 1⟩ ⟨[], []⟩ ⟨[], []⟩
      StorageOutcome.success StorageOutcome.success).1 rfl).1,
   ((c7_update_requires_id ⟨none, "holiday", none, "customer-1", false⟩
      ⟨none, 1, 100, "Widget", "A widget", 25, none, 1⟩ ⟨[], []⟩ ⟨[], []⟩
      StorageOutcome.success StorageOutcome.success).2.1 rfl).1⟩

/-- Claim C8: when the storage engine's `commit` raises during any
create/update/delete on either model, the operation surfaces a
`DataValidationError` and the transaction is rolled back, so the committed
table is exactly what it was before the operation. -/
theorem c8_storage_error_rollback (w : Wishlist) (i : WishlistItem)
    (sw : DbSession Wishlist) (si : DbSession WishlistItem) (m : String) :
    ((∃ msg, (Wishlist.create w sw (StorageOutcome.failure m)).outcome
        = Except.error (PyError.dataValidationError msg))
      ∧ (Wishlist.create w sw (StorageOutcome.failure m)).session.committed = sw.committed)
    ∧ ((∃ msg, (Wishlist.update w sw (StorageOutcome.failure m)).outcome
        = Except.error (PyError.dataValidationError msg))
      ∧ (Wishlist.update w sw (StorageOutcome.failure m)).session.committed = sw.committed)
    ∧ ((∃ msg, (Wishlist.delete w sw (StorageOutcome.failure m)).outcome
        = Except.error (PyError.dataValidationError msg))
      ∧ (Wishlist.delete w sw (StorageOutcome.failure m)).session.committed = sw.committed)
    ∧ ((∃ msg, (WishlistItem.create i si (StorageOutcome.failure m)).outcome
        = Except.error (PyError.dataValidationError msg))
      ∧ (WishlistItem.create i si (StorageOutcome.failure m)).session.committed = si.committed)
    ∧ ((∃ msg, (WishlistItem.update i si (StorageOutcome.failure m)).outcome
        = Except.error (PyError.dataValidationError msg))
      ∧ (WishlistItem.update i si (StorageOutcome.failure m)).session.committed = si.committed)
    ∧ ((∃ msg, (WishlistItem.delete i si (StorageOutcome.failure m)).outcome
        = Except.error (PyError.dataValidationError msg))
      ∧ (WishlistItem.delete i si (StorageOutcome.failure m)).session.committed = si.committed) := by
  refine ⟨⟨⟨m, rfl⟩, rfl⟩, ⟨?_, ?_⟩, ⟨⟨m, rfl⟩, rfl⟩, ⟨⟨m, rfl⟩, rfl⟩, ⟨?_, ?_⟩, ⟨⟨m, rfl⟩, rfl⟩⟩
  · cases h : pyFalsyId w.id <;>
      simp [Wishlist.update, h]
  · cases h : pyFalsyId w.id <;>
      simp [Wishlist.update, DbSession.rollback, h]
  · cases h : pyFalsyId i.id <;>
      simp [WishlistItem.update, h]
  · cases h : pyFalsyId i.id <;>
      simp [WishlistItem.update, DbSession.rollback, h]

/-- Claim C8 witness: a failing commit during `Wishlist.create` on a
session with one committed row surfaces a `DataValidationError` and leaves
the committed table unchanged. -/
theorem c8_witness :
    (∃ msg, (Wishlist.create demoWishlist ⟨[demoWishlist], []⟩ (StorageOutcome.failure ("disk full"))).outcome
        = Except.error (PyError.dataValidationError msg))
    ∧ (Wishlist.create demoWishlist ⟨[demoWishlist], []⟩ (StorageOutcome.failure ("disk full"))).session.committed
        = [demoWishlist] :=
  (c8_storage_error_rollback demoWishlist demoItem ⟨[demoWishlist], []⟩ ⟨[], []⟩ ("disk full")).1

/-- Claim C10: both DELETE handlers answer 204 No Content whether or not
the target exists, and when the target does not exist — or the item
belongs to a different wishlist — the store is left unchanged instead of
a 404 being returned. -/
theorem c10_delete_always_204 (store : AppStore) (wid iid : Int) :
    (WishlistResource.delete store wid).1 = 204
    ∧ (WishlistItemResource.delete store wid iid).1 = 204
    ∧ (Wishlist.find store wid = none → (WishlistResource.delete store wid).2 = store)
    ∧ (WishlistItem.find store iid = none →
        (WishlistItemResource.delete store wid iid).2 = store)
    ∧ (∀ item, WishlistItem.find store iid = some item → item.wishlist_id ≠ wid →
        (WishlistItemResource.delete store wid iid).2 = store) := by
  refine ⟨?_, ?_, ?_, ?_, ?_⟩
  · rcases h : Wishlist.find store wid with _ | w <;>
      simp [WishlistResource.delete, h]
  · rcases h : WishlistItem.find store iid with _ | it
    · simp [WishlistItemResource.delete, h]
    · cases hb : it.wishlist_id == wid <;>
        simp [WishlistItemResource.delete, h, hb]
  · intro h
    simp [WishlistResource.delete, h]
  · intro h
    simp [WishlistItemResource.delete, h]
  · intro item h hne
    simp [WishlistItemResource.delete, h, hne]

/-- Claim C10 witness: deleting the nonexistent wishlist 2 and the
nonexistent item 2 from the demo store answers 204 and leaves the store
unchanged. -/
theorem c10_witness :
    (WishlistResource.delete demoStore 2).1 = 204
    ∧ (WishlistResource.delete demoStore 2).2 = demoStore
    ∧ (WishlistItemResource.delete demoStore 2 2).1 = 204
    ∧ (WishlistItemResource.delete demoStore 2 2).2 = demoStore :=
  ⟨(c10_delete_always_204 demoStore 2 2).1,
   (c10_delete_always_204 demoStore 2 2).2.2.1 (by decide),
   (c10_delete_always_204 demoStore 2 2).2.1,
   (c10_delete_always_204 demoStore 2 2).2.2.2.1 (by decide)⟩

end WishlistsSpec
